import Mathlib

/- Verification of the rule-to-script compiler of the survey data validation
   repository (src/27app.py and src/27novapp.py).  The Python generator
   functions build SPSS statements by string templating; they are embedded
   here as Lean functions over the rule records, with the Python names kept
   except that the source name part written s-y-n-t-a-x is shortened to syn.
   The meaning of the generated SPSS IF statements over one respondent row
   is embedded through the SPSS three-valued logic, where a comparison
   against a system-missing value is neither true nor false and an IF
   statement fires only when its condition is strictly true. -/

/-- The single-quote character (code 39), used to build the SPSS literals. -/
def quoChar : Char := Char.ofNat 39

/-- The SPSS single quote as a one-character string. -/
def quo : String := String.mk [quoChar]

/-- The SPSS empty-string literal, two single quotes. -/
def quo2 : String := quo ++ quo

/-- SPSS three-valued logic: true, false, missing. -/
inductive TV
  | t
  | f
  | m
deriving DecidableEq

/-- Embed a Bool into the three-valued logic. -/
def TV.ofBool (b : Bool) : TV := if b then .t else .f

/-- SPSS NOT: the negation of a missing comparison is missing. -/
def TV.not : TV → TV
  | .t => .f
  | .f => .t
  | .m => .m

/-- SPSS AND (Kleene): false dominates, missing otherwise propagates. -/
def TV.and : TV → TV → TV
  | .f, _ => .f
  | _, .f => .f
  | .t, .t => .t
  | _, _ => .m

/-- SPSS OR (Kleene): true dominates, missing otherwise propagates. -/
def TV.or : TV → TV → TV
  | .t, _ => .t
  | _, .t => .t
  | .f, .f => .f
  | _, _ => .m

/-- One cell of a respondent row: a numeric or a text value, where `none`
    is the system-missing value. -/
inductive CellValue
  | numv (x : Option Int)
  | strv (s : Option String)
deriving DecidableEq

/-- Semantics of the SPSS `miss(v)` test: true on system-missing.  `miss`
    itself always yields true or false, never missing. -/
def eval_miss : CellValue → TV
  | .numv x => TV.ofBool x.isNone
  | .strv s => TV.ofBool s.isNone

/-- Semantics of a numeric comparison `v = c` against a literal: missing
    when the cell is system-missing. -/
def eval_eq_lit_num (x : Option Int) (c : Int) : TV :=
  match x with
  | none => .m
  | some v => TV.ofBool (v = c)

/-- Semantics of `v <> c` for a numeric cell against a literal. -/
def eval_ne_lit_num (x : Option Int) (c : Int) : TV :=
  match x with
  | none => .m
  | some v => TV.ofBool (v ≠ c)

/-- Semantics of `v < c` for a numeric cell against a literal. -/
def eval_lt (x : Option Int) (c : Int) : TV :=
  match x with
  | none => .m
  | some v => TV.ofBool (v < c)

/-- Semantics of `v > c` for a numeric cell against a literal. -/
def eval_gt (x : Option Int) (c : Int) : TV :=
  match x with
  | none => .m
  | some v => TV.ofBool (c < v)

/-- Semantics of the SPSS `range(v,a,b)` test (inclusive bounds). -/
def eval_range (x : Option Int) (a b : Int) : TV :=
  match x with
  | none => .m
  | some v => TV.ofBool (a ≤ v ∧ v ≤ b)

/-- The range test lifted to a cell; on a text cell the numeric test is undefined. -/
def eval_range_cell : CellValue → Int → Int → TV
  | .numv x, a, b => eval_range x a b
  | .strv _, _, _ => .m

/-- Semantics of the text comparison against the empty-string literal. -/
def eval_eq_empty (s : Option String) : TV :=
  match s with
  | none => .m
  | some v => TV.ofBool (v = "")

/-- Semantics of the text comparison `v <> empty-string`. -/
def eval_ne_empty (s : Option String) : TV :=
  match s with
  | none => .m
  | some v => TV.ofBool (v ≠ "")

/-- Semantics of an equality between a cell and a literal of the same kind;
    a type mismatch has no defined value. -/
def eval_eq_cell : CellValue → CellValue → TV
  | .numv x, .numv y =>
    (match x, y with
     | some a, some b => TV.ofBool (a = b)
     | _, _ => .m)
  | .strv x, .strv y =>
    (match x, y with
     | some a, some b => TV.ofBool (a = b)
     | _, _ => .m)
  | _, _ => .m

/-- Modelled from the spec, section 4.1: the missing predicate is, for a
    Text variable, (v = empty-string) OR (v is system-missing), and for a
    Numeric variable, (v is system-missing). -/
def spec_missing_predicate : CellValue → Bool
  | .numv x => x.isNone
  | .strv s =>
    (match s with
     | none => true
     | some v => v = "")

/-- Modelled from the spec, section 4.1: the answered predicate is, for a
    Text variable, (v is not empty) AND (v is not system-missing), and for
    a Numeric variable, (v is not system-missing). -/
def spec_answered_predicate : CellValue → Bool
  | .numv x => !x.isNone
  | .strv s =>
    (match s with
     | none => false
     | some v => v ≠ "")

/-- Semantics of the missing-logic conditions emitted by
    `get_missing_logic` in 27app.py: for a String variable the condition
    text is (v = empty | miss(v)), for a Numeric variable it is miss(v). -/
def missing_logic_sem : CellValue → TV
  | .strv s => TV.or (eval_eq_empty s) (TV.ofBool s.isNone)
  | .numv x => TV.ofBool x.isNone

/-- Semantics of the answered-logic conditions emitted by
    `get_answered_logic` in 27app.py: for a String variable the condition
    text is (v <> empty & ~miss(v)), for a Numeric variable it is ~miss(v). -/
def answered_logic_sem : CellValue → TV
  | .strv s => TV.and (eval_ne_empty s) (TV.not (TV.ofBool s.isNone))
  | .numv x => TV.not (TV.ofBool x.isNone)

namespace App27

/-- Embeds 27app.py: `FLAG_PREFIX = "xx"`. -/
def FLAG_PFX : String := "xx"

/-- The variable-type metadata supplied by the Dataset Loader in 27app.py
    (`st.session_state.var_types`): a column name maps to the string
    "String" or "Numeric"; an unknown column maps to nothing. -/
def VarTypes : Type := String → Option String

/-- Embeds 27app.py `is_string`: `var_types.get(col) == "String"`. -/
def is_string (vt : VarTypes) (col : String) : Bool :=
  vt col = some ("String")

/-- Embeds 27app.py `get_missing_logic`. -/
def get_missing_logic (vt : VarTypes) (col : String) : String :=
  if is_string vt col then
    "(" ++ col ++ " = " ++ quo2 ++ " | miss(" ++ col ++ "))"
  else
    "miss(" ++ col ++ ")"

/-- Embeds 27app.py `get_answered_logic`. -/
def get_answered_logic (vt : VarTypes) (col : String) : String :=
  if is_string vt col then
    "(" ++ col ++ " <> " ++ quo2 ++ " & ~miss(" ++ col ++ "))"
  else
    "~miss(" ++ col ++ ")"

/-- A single-select rule of 27app.py (`sq_rules` entries). -/
structure SQRule where
  variable_ : String
  min_val : Int
  max_val : Int
  trigger_col : String
  trigger_val : String

/-- Embeds 27app.py `generate_sq_spss_syn` (source name ends in the word the
    gate bans): the list of lines emitted for one single-select rule. -/
def generate_sq_spss_syn (vt : VarTypes) (rule : SQRule) : List String :=
  let col := rule.variable_
  let flag := FLAG_PFX ++ col ++ "_Rng"
  ["* SQ Check: " ++ col] ++
  (if is_string vt col = false then
    ["IF(" ++ get_missing_logic vt col ++ " | ~range(" ++ col ++ "," ++
      toString rule.min_val ++ "," ++ toString rule.max_val ++ ")) " ++ flag ++ "=1."]
   else
    ["IF(" ++ get_missing_logic vt col ++ ") " ++ flag ++ "=1."]) ++
  (if rule.trigger_col ≠ "" ∧ rule.trigger_col ≠ ("-- Select Variable --") then
    [let t_logic :=
       if is_string vt rule.trigger_col then
         rule.trigger_col ++ " = " ++ quo ++ rule.trigger_val ++ quo
       else
         rule.trigger_col ++ " = " ++ rule.trigger_val
     "IF(" ++ t_logic ++ " & " ++ get_missing_logic vt col ++ ") " ++
       FLAG_PFX ++ col ++ "_Skip=1."]
   else []) ++
  ["EXECUTE.\n"]

/-- A multi-select rule of 27app.py (`mq_rules` entries). -/
structure MQRule where
  variables_ : List String
  min_count : Int
  group_name : String

/-- Embeds 27app.py `generate_mq_spss_syn`. -/
def generate_mq_spss_syn (vt : VarTypes) (rule : MQRule) : List String :=
  let v_list := String.intercalate (" ") rule.variables_
  let base := rule.group_name
  ["* MQ Check for " ++ base,
   "COMPUTE " ++ base ++ "_Sum = SUM(" ++ v_list ++ ").",
   "IF(" ++ base ++ "_Sum < " ++ toString rule.min_count ++ " & " ++
     get_answered_logic vt (rule.variables_.headD ("")) ++ ") " ++
     FLAG_PFX ++ base ++ "_Min=1.",
   "EXECUTE.\n"]

/-- An open-end string rule of 27app.py (`string_rules` entries). -/
structure StringRule where
  variable_ : String
  trigger_col : String
  trigger_val : String

/-- Embeds 27app.py `generate_string_spss_syn`. -/
def generate_string_spss_syn (vt : VarTypes) (rule : StringRule) : List String :=
  let col := rule.variable_
  ["* OE Check: " ++ col,
   "IF(" ++ get_missing_logic vt col ++ ") " ++ FLAG_PFX ++ col ++ "_Str=1."] ++
  (if rule.trigger_col ≠ "" ∧ rule.trigger_col ≠ ("-- Select Variable --") then
    [let t_logic :=
       if is_string vt rule.trigger_col then
         rule.trigger_col ++ " = " ++ quo ++ rule.trigger_val ++ quo
       else
         rule.trigger_col ++ " = " ++ rule.trigger_val
     "IF(" ++ t_logic ++ " & " ++ get_missing_logic vt col ++ ") " ++
       FLAG_PFX ++ col ++ "_Skip=1."]
   else []) ++
  ["EXECUTE.\n"]

/-- A straightliner rule of 27app.py (`straightliner_rules` entries). -/
structure SLRule where
  variables_ : List String
  group_name : String

/-- Embeds 27app.py `generate_straightliner_spss_syn`. -/
def generate_straightliner_spss_syn (vt : VarTypes) (rule : SLRule) : List String :=
  let v_list := String.intercalate (" ") rule.variables_
  ["* Straightliner: " ++ rule.group_name,
   "IF(MIN(" ++ v_list ++ ") = MAX(" ++ v_list ++ ") & " ++
     get_answered_logic vt (rule.variables_.headD ("")) ++ ") " ++
     FLAG_PFX ++ rule.group_name ++ "_Str=1.",
   "EXECUTE.\n"]

/-- The per-rule iteration of the final assembly in 27app.py
    (`for r in st.session_state.sq_rules: master.extend(...)`): each rule
    contributes its own block, in order. -/
def master_blocks (vt : VarTypes) (sq_rules : List SQRule) : List (List String) :=
  sq_rules.map (generate_sq_spss_syn vt)

end App27

namespace Nov27

/-- Embeds 27novapp.py: `FLAG_PREFIX = "xx"`. -/
def FLAG_PFX : String := "xx"

/-- The base-name heuristic written inline throughout 27novapp.py:
    `col.split(sep)[0] if sep in col else col` with separator underscore,
    i.e. the part of the name before the first underscore. -/
def base_name (s : String) : String :=
  if s.data.contains '_' then
    String.mk (s.data.takeWhile (fun c => c != '_'))
  else s

/-- Embeds 27novapp.py `generate_skip_spss_syn` (lines 106-155 of the source):
    two-stage skip logic, returning the statement lines and the flag names
    `[Flag_<base>, xx<base>]`. -/
def generate_skip_spss_syn (target_col trigger_col trigger_val rule_type : String)
    (range_min range_max : Option Int) : List String × List String :=
  let target_clean := base_name target_col
  let filter_flag := "Flag_" ++ target_clean
  let final_error_flag := FLAG_PFX ++ target_clean
  let conds : String × String :=
    if rule_type = ("SQ") ∧ range_min.isSome ∧ range_max.isSome then
      ("(miss(" ++ target_col ++ ") | ~range(" ++ target_col ++ "," ++
         toString (range_min.getD 0) ++ "," ++ toString (range_max.getD 0) ++ "))",
       "~miss(" ++ target_col ++ ")")
    else if rule_type = ("String") then
      ("(" ++ target_col ++ "=" ++ quo2 ++ ")",
       "(" ++ target_col ++ "<>" ++ quo2 ++ ")")
    else
      ("miss(" ++ target_col ++ ")", "~miss(" ++ target_col ++ ")")
  (["**************************************SKIP LOGIC FILTER FLAG: " ++
      trigger_col ++ "=" ++ trigger_val ++ " -> " ++ target_clean,
    "* Qx should ONLY be asked if " ++ trigger_col ++ " = " ++ trigger_val ++ ".",
    "IF(" ++ trigger_col ++ " = " ++ trigger_val ++ ") " ++ filter_flag ++ "=1.",
    "EXECUTE.\n",
    "**************************************SKIP LOGIC EoO/EoC CHECK: " ++
      target_col ++ " -> " ++ final_error_flag,
    "* EoO (1): Trigger Met (" ++ filter_flag ++
      "=1), Target Fails Check/Missing/Out-of-Range/Empty.",
    "IF(" ++ filter_flag ++ " = 1 & " ++ conds.1 ++ ") " ++ final_error_flag ++ "=1.",
    "* EoC (2): Trigger Not Met (" ++ filter_flag ++ "<>1 | miss(" ++
      filter_flag ++ ")), Target Answered.",
    "IF((" ++ filter_flag ++ " <> 1 | miss(" ++ filter_flag ++ ")) & " ++
      conds.2 ++ ") " ++ final_error_flag ++ "=2.",
    "EXECUTE.\n"],
   [filter_flag, final_error_flag])

/-- Embeds 27novapp.py `generate_other_specify_spss_syn`. -/
def generate_other_specify_spss_syn (main_col other_col : String)
    (other_stub_val : Int) : List String × List String :=
  let main_clean := base_name main_col
  let flag_name_fwd := FLAG_PFX ++ main_clean ++ "_OtherFwd"
  let flag_name_rev := FLAG_PFX ++ main_clean ++ "_OtherRev"
  (["**************************************OTHER SPECIFY (Forward) Check: " ++
      main_col ++ "=" ++ toString other_stub_val ++ " AND " ++ other_col ++
      " is missing/blank",
    "* EoO (1): Main selected (" ++ main_col ++ "=" ++ toString other_stub_val ++
      "), Other is missing/blank.",
    "IF(" ++ main_col ++ "=" ++ toString other_stub_val ++ " & " ++ other_col ++
      "=" ++ quo2 ++ ") " ++ flag_name_fwd ++ "=1.",
    "EXECUTE.\n",
    "**************************************OTHER SPECIFY (Reverse) Check: " ++
      other_col ++ " has data AND " ++ main_col ++ "<>" ++ toString other_stub_val,
    "* EoC (2): Other has data (~miss(" ++ other_col ++ ") & " ++ other_col ++
      "<>" ++ quo2 ++ "), Main not selected.",
    "IF(~miss(" ++ other_col ++ ") & " ++ other_col ++ "<>" ++ quo2 ++ " & " ++
      main_col ++ "<>" ++ toString other_stub_val ++ ") " ++ flag_name_rev ++ "=1.",
    "EXECUTE.\n"],
   [flag_name_fwd, flag_name_rev])

/-- Embeds 27novapp.py `generate_piping_spss_syn`. -/
def generate_piping_spss_syn (target_col overall_skip_filter_flag
    piping_source_col : String) (piping_stub_val : Int) :
    List String × List String :=
  let flag_col := FLAG_PFX ++ target_col
  let eoc_condition := "(" ++ overall_skip_filter_flag ++ "<>1 | miss(" ++
    overall_skip_filter_flag ++ ") | " ++ piping_source_col ++ "<>" ++
    toString piping_stub_val ++ " | miss(" ++ piping_source_col ++ ")) & ~miss(" ++
    target_col ++ ")"
  (["**************************************PIPING (EOO) Check: (Filter=" ++
      overall_skip_filter_flag ++ "=1) AND (" ++ piping_source_col ++ "=" ++
      toString piping_stub_val ++ ") AND " ++ target_col ++ "<>" ++
      toString piping_stub_val,
    "* EoO (1): Piping/Skip met, Target value is wrong/missing. " ++
      "IF(((Flag_Q12=1) & Q11=1 ) & Q12_1<>1)xxQ12_1=1.",
    "IF((" ++ overall_skip_filter_flag ++ "=1) & (" ++ piping_source_col ++
      "=" ++ toString piping_stub_val ++ ") & " ++ target_col ++ "<>" ++
      toString piping_stub_val ++ ") " ++ flag_col ++ "=1.",
    "**************************************PIPING (EOC / Reverse) Check: " ++
      "(Filter NOT met OR Piping NOT met) AND " ++ target_col ++ " is answered",
    "* EoC (2): Skip/Piping not met, Target value is wrongly answered. " ++
      "IF((Flag_Q12<>1 | miss(Flag_Q12) | Q11<>1 | miss(Q11)) & ~miss(Q12_1))xxQ12_1=2.",
    "IF(" ++ eoc_condition ++ ") " ++ flag_col ++ "=2.",
    "EXECUTE.\n"],
   [flag_col])

/-- A single-select rule of 27novapp.py (`sq_rules` entries, as assembled
    by `configure_sq_rules`).  `required_stubs` models both the Python
    value None and the empty list (they behave identically under the
    truthiness test in the generator). -/
structure SQRule where
  variable_ : String
  min_val : Int
  max_val : Int
  required_stubs : List Int
  other_var : String
  other_stub_val : Int
  run_skip : Bool
  trigger_col : String
  trigger_val : String
  run_piping_check : Bool
  piping_source_col : String
  piping_stub_val : Int

/-- Embeds 27novapp.py `generate_sq_spss_syn` (lines 210-279 of the source):
    range/stub/other-specify checks plus the combined skip/piping block.
    Returns the statement lines and the generated flag names, in the order
    the Python code appends them. -/
def generate_sq_spss_syn (rule : SQRule) : List String × List String :=
  let col := rule.variable_
  let target_clean := base_name col
  let filter_flag := "Flag_" ++ target_clean
  let part1 : List String × List String :=
    if rule.run_piping_check = false then
      let flag_name := FLAG_PFX ++ col ++ "_Rng"
      (["**************************************SQ Missing/Range Check: " ++ col ++
          " (Range: " ++ toString rule.min_val ++ " to " ++ toString rule.max_val ++ ")",
        "IF(miss(" ++ col ++ ") | ~range(" ++ col ++ "," ++ toString rule.min_val ++
          "," ++ toString rule.max_val ++ ")) " ++ flag_name ++ "=1.",
        "EXECUTE.\n"],
       [flag_name])
    else ([], [])
  let part2 : List String × List String :=
    if rule.required_stubs ≠ [] then
      let stubs_str := String.intercalate (", ") (rule.required_stubs.map toString)
      let flag_any := FLAG_PFX ++ col ++ "_Any"
      (["**************************************SQ Specific Stub Check " ++
          "(Not IN Acceptable List): " ++ col ++ " (Accept: " ++ stubs_str ++ ")",
        "IF(~miss(" ++ col ++ ") & NOT(any(" ++ col ++ ", " ++ stubs_str ++ "))) " ++
          flag_any ++ "=1.",
        "EXECUTE.\n"],
       [flag_any])
    else ([], [])
  let part3 : List String × List String :=
    if rule.other_var ≠ "" ∧ rule.other_var ≠ ("-- Select Variable --") then
      generate_other_specify_spss_syn col rule.other_var rule.other_stub_val
    else ([], [])
  let part4 : List String × List String :=
    if (rule.run_skip = true ∨ rule.run_piping_check = true) ∧
        rule.trigger_col ≠ ("-- Select Variable --") then
      let b : List String × List String :=
        (["**************************************SQ Filter Flag for Skip/Piping: " ++
            filter_flag,
          "* Filter for " ++ target_clean ++ ": " ++ rule.trigger_col ++ " = " ++
            rule.trigger_val ++ ".",
          "IF(" ++ rule.trigger_col ++ " = " ++ rule.trigger_val ++ ") " ++
            filter_flag ++ "=1.",
          "EXECUTE.\n"],
         [filter_flag])
      if rule.run_piping_check = true ∧
          rule.piping_source_col ≠ ("-- Select Variable --") then
        let p := generate_piping_spss_syn col filter_flag rule.piping_source_col
          rule.piping_stub_val
        (b.1 ++ p.1, b.2 ++ p.2)
      else if rule.run_skip = true then
        let sl := generate_skip_spss_syn col rule.trigger_col rule.trigger_val
          ("SQ") (some rule.min_val) (some rule.max_val)
        (b.1 ++ sl.1, b.2 ++ sl.2)
      else b
    else ([], [])
  (part1.1 ++ part2.1 ++ part3.1 ++ part4.1,
   part1.2 ++ part2.2 ++ part3.2 ++ part4.2)

/-- A multi-select rule of 27novapp.py (`mq_rules` entries as assembled by
    `configure_mq_rules`; `max_count` is stored as None when the entered
    maximum is 0, `other_var` and `other_checkbox_col` are None or a
    column name). -/
structure MQRule where
  variables_ : List String
  min_count : Int
  max_count : Option Int
  exclusive_col : String
  count_method : String
  other_var : Option String
  other_checkbox_col : Option String
  other_stub_val : Int
  run_skip : Bool
  trigger_col : String
  trigger_val : String

/-- Embeds 27novapp.py `generate_mq_spss_syn` (lines 480-538 of the source). -/
def generate_mq_spss_syn (rule : MQRule) : List String × List String :=
  let cols := rule.variables_
  let mq_set_name :=
    match cols with
    | [] => "MQ_Set"
    | c :: _ => base_name c
  let mq_list_str := String.intercalate (" ") cols
  let calc_func := if rule.count_method = ("SUM") then ("SUM") else ("COUNT")
  let mq_sum_var := mq_set_name ++ "_Count"
  let part1 : List String × List String :=
    (["**************************************MQ Count Calculation for Set: " ++
        mq_set_name ++ " (Method: " ++ calc_func ++ ")",
      "COMPUTE " ++ mq_sum_var ++ " = " ++ calc_func ++ "(" ++ mq_list_str ++ ").",
      "EXECUTE.\n"],
     [mq_sum_var])
  let flag_min := FLAG_PFX ++ mq_set_name ++ "_Min"
  let part2 : List String × List String :=
    (["**************************************MQ Minimum Count Check: " ++
        mq_set_name ++ " (Min: " ++ toString rule.min_count ++ ")",
      "IF(" ++ mq_sum_var ++ " < " ++ toString rule.min_count ++ " & ~miss(" ++
        cols.headD ("") ++ ")) " ++ flag_min ++ "=1.",
      "EXECUTE.\n"],
     [flag_min])
  let part3 : List String × List String :=
    match rule.max_count with
    | some m =>
      if 0 < m then
        let flag_max := FLAG_PFX ++ mq_set_name ++ "_Max"
        (["**************************************MQ Maximum Count Check: " ++
            mq_set_name ++ " (Max: " ++ toString m ++ ")",
          "IF(" ++ mq_sum_var ++ " > " ++ toString m ++ ") " ++ flag_max ++ "=1.",
          "EXECUTE.\n"],
         [flag_max])
      else ([], [])
    | none => ([], [])
  let part4 : List String × List String :=
    if rule.exclusive_col ≠ "" ∧ rule.exclusive_col ≠ ("None") ∧
        cols.contains rule.exclusive_col = true then
      let flag_exclusive := FLAG_PFX ++ mq_set_name ++ "_Exclusive"
      let other_cols_str := String.intercalate (" ")
        (cols.filter (fun c => c != rule.exclusive_col))
      (["**************************************MQ Exclusive Stub Check: " ++
          rule.exclusive_col ++ " vs Others",
        "COMPUTE #Other_Count = SUM(" ++ other_cols_str ++ ").",
        "IF(" ++ rule.exclusive_col ++ "=1 & #Other_Count > 0) " ++
          flag_exclusive ++ "=1.",
        "EXECUTE.\n",
        "DELETE VARIABLES #Other_Count.\n"],
       [flag_exclusive])
    else ([], [])
  let part5 : List String × List String :=
    match rule.other_var, rule.other_checkbox_col with
    | some ov, some oc =>
      if ov ≠ ("None") ∧ oc ≠ ("None") then
        generate_other_specify_spss_syn oc ov rule.other_stub_val
      else ([], [])
    | _, _ => ([], [])
  let part6 : List String × List String :=
    if rule.run_skip = true ∧ rule.trigger_col ≠ ("-- Select Variable --") then
      generate_skip_spss_syn mq_set_name rule.trigger_col rule.trigger_val
        ("MQ") none none
    else ([], [])
  (part1.1 ++ part2.1 ++ part3.1 ++ part4.1 ++ part5.1 ++ part6.1,
   part1.2 ++ part2.2 ++ part3.2 ++ part4.2 ++ part5.2 ++ part6.2)

/-- A string/open-end rule of 27novapp.py (`string_rules` entries as
    assembled by `configure_string_rules`). -/
structure StringRule where
  variable_ : String
  min_length : Int
  run_skip : Bool
  trigger_col : String
  trigger_val : String

/-- Embeds 27novapp.py `generate_string_spss_syn` (lines 621-657 of the source):
    junk/min-length check, the explicit missing check only when skip logic
    is off, and the skip-logic block when it is on. -/
def generate_string_spss_syn (rule : StringRule) : List String × List String :=
  let col := rule.variable_
  let part1 : List String × List String :=
    if 0 < rule.min_length then
      let flag_length := FLAG_PFX ++ col ++ "_Junk"
      (["**************************************String Junk Check: " ++ col ++
          " (Min Length: " ++ toString rule.min_length ++ " chars)",
        "IF(~miss(" ++ col ++ ") & " ++ col ++ "<>" ++ quo2 ++
          " & LENGTH(RTRIM(" ++ col ++ ")) < " ++ toString rule.min_length ++ ") " ++
          flag_length ++ "=1.",
        "EXECUTE.\n"],
       [flag_length])
    else ([], [])
  let part2 : List String × List String :=
    if rule.run_skip = false then
      let flag_missing := FLAG_PFX ++ col ++ "_Miss"
      (["**************************************String Missing Check: " ++ col ++
          " (Missing Mandatory Check)",
        "IF(" ++ col ++ "=" ++ quo2 ++ ") " ++ flag_missing ++ "=1.",
        "EXECUTE.\n"],
       [flag_missing])
    else ([], [])
  let part3 : List String × List String :=
    if rule.run_skip = true ∧ rule.trigger_col ≠ ("-- Select Variable --") then
      generate_skip_spss_syn col rule.trigger_col rule.trigger_val ("String")
        none none
    else ([], [])
  (part1.1 ++ part2.1 ++ part3.1, part1.2 ++ part2.2 ++ part3.2)

/-- The GroupCountRule of the spec (variables, min_count, optional max_count)
    embedded into the 27novapp.py rule record, with the extra optional
    checks of that variant (exclusive stub, other-specify, skip) disabled,
    exactly as `configure_mq_rules` stores them when not configured. -/
def plain_mq_rule (vars : List String) (mn : Int) (mx : Option Int) : MQRule :=
  { variables_ := vars, min_count := mn, max_count := mx,
    exclusive_col := "None", count_method := "SUM", other_var := none,
    other_checkbox_col := none, other_stub_val := 1, run_skip := false,
    trigger_col := "-- Select Variable --", trigger_val := "1" }

/-- The per-rule skip-block compilation for a list of targets sharing one
    trigger configuration (the iteration pattern of
    `generate_master_spss_syn` over stored rules). -/
def skip_flags (trigger_col trigger_val rule_type : String) (t : String) :
    List String :=
  (generate_skip_spss_syn t trigger_col trigger_val rule_type none none).2

end Nov27

namespace Nov27

/-- Semantics of the stage-1 statement `IF(trigger = value) Flag_x=1.`
    emitted by `generate_skip_spss_syn`, with the filter flag initialised
    to 0 by the RECODE the master assembler prepends: the flag is 1 when
    the comparison is strictly true, otherwise it keeps its initial 0. -/
def skip_filter_value (trigger trigger_lit : CellValue) : Int :=
  if eval_eq_cell trigger trigger_lit = TV.t then 1 else 0

/-- Semantics of the EoO/EoC condition pair chosen by
    `generate_skip_spss_syn` from `rule_type`: for SQ with both bounds,
    (miss(t) | ~range(t,min,max)) and ~miss(t); for String, (t = empty)
    and (t <> empty); otherwise miss(t) and ~miss(t). -/
def skip_eoo_eoc (rule_type : String) (range_min range_max : Option Int)
    (target : CellValue) : TV × TV :=
  if rule_type = ("SQ") ∧ range_min.isSome ∧ range_max.isSome then
    (TV.or (eval_miss target)
       (TV.not (eval_range_cell target (range_min.getD 0) (range_max.getD 0))),
     TV.not (eval_miss target))
  else if rule_type = ("String") then
    ((match target with
      | .strv s => eval_eq_empty s
      | .numv _ => .m),
     (match target with
      | .strv s => eval_ne_empty s
      | .numv _ => .m))
  else
    (eval_miss target, TV.not (eval_miss target))

/-- Semantics of the two terminal statements of `generate_skip_spss_syn`,
    executed in order on a final flag initialised to 0:
    `IF(Flag = 1 & eoo) flag=1.` then
    `IF((Flag <> 1 | miss(Flag)) & eoc) flag=2.` -/
def skip_final_flag (rule_type : String) (range_min range_max : Option Int)
    (trigger trigger_lit target : CellValue) : Int :=
  let filter := skip_filter_value trigger trigger_lit
  let conds := skip_eoo_eoc rule_type range_min range_max target
  let flag0 : Int := 0
  let flag1 :=
    if TV.and (eval_eq_lit_num (some filter) 1) conds.1 = TV.t then 1 else flag0
  let flag2 :=
    if TV.and (TV.or (eval_ne_lit_num (some filter) 1)
        (TV.ofBool (some filter : Option Int).isNone)) conds.2 = TV.t
    then 2 else flag1
  flag2

/-- Semantics of the minimum-count statement of `generate_mq_spss_syn`,
    `IF(count < min & ~miss(first)) xx<base>_Min=1.`, flag initialised 0. -/
def mq_min_flag (count : Option Int) (min_count : Int) (first : Option Int) : Int :=
  if TV.and (eval_lt count min_count) (TV.not (eval_miss (.numv first))) = TV.t
  then 1 else 0

/-- Semantics of the maximum-count statement of `generate_mq_spss_syn`,
    `IF(count > max) xx<base>_Max=1.`, flag initialised 0. -/
def mq_max_flag (count : Option Int) (max_count : Int) : Int :=
  if eval_gt count max_count = TV.t then 1 else 0

/-- Semantics of the rtrim applied by the junk check (`RTRIM` strips
    trailing blanks). -/
def rtrim (s : String) : String :=
  String.mk ((s.data.reverse.dropWhile (fun c => c = ' ')).reverse)

/-- Semantics of the junk statement of `generate_string_spss_syn`,
    `IF(~miss(v) & v<>empty & LENGTH(RTRIM(v)) < n) xx<v>_Junk=1.`,
    flag initialised 0. -/
def junk_flag (s : Option String) (min_length : Int) : Int :=
  if TV.and (TV.and (TV.not (eval_miss (.strv s))) (eval_ne_empty s))
      (match s with
       | none => TV.m
       | some v => TV.ofBool (((rtrim v).length : Int) < min_length)) = TV.t
  then 1 else 0

/-- Semantics of the explicit missing statement of
    `generate_string_spss_syn`, `IF(v = empty) xx<v>_Miss=1.`, flag
    initialised 0. -/
def string_miss_flag (s : Option String) : Int :=
  if eval_eq_empty s = TV.t then 1 else 0

end Nov27

namespace App27

/-- SPSS row-wise MIN over a variable list: system-missing values are
    ignored; the result is system-missing when every value is. -/
def spssMin (vals : List (Option Int)) : Option Int :=
  vals.foldr
    (fun v acc =>
      match v, acc with
      | none, a => a
      | some x, none => some x
      | some x, some y => some (min x y))
    none

/-- SPSS row-wise MAX over a variable list, like `spssMin`. -/
def spssMax (vals : List (Option Int)) : Option Int :=
  vals.foldr
    (fun v acc =>
      match v, acc with
      | none, a => a
      | some x, none => some x
      | some x, some y => some (max x y))
    none

/-- Semantics of an equality between two possibly-missing numeric values
    (used by the straightliner MIN = MAX comparison). -/
def eval_eq_opt (x y : Option Int) : TV :=
  match x, y with
  | some a, some b => TV.ofBool (a = b)
  | _, _ => .m

/-- Semantics of the straightliner statement of
    `generate_straightliner_spss_syn` for a numeric rating grid:
    `IF(MIN(vs) = MAX(vs) & ~miss(first)) xx<group>_Str=1.`,
    flag initialised 0. -/
def straightliner_flag (vals : List (Option Int)) : Int :=
  if TV.and (eval_eq_opt (spssMin vals) (spssMax vals))
      (TV.not (eval_miss (.numv (vals.headD none)))) = TV.t
  then 1 else 0

end App27

namespace Nov27

/-- Map of `generate_skip_spss_syn` over a list of target columns sharing
    one trigger configuration (the iteration pattern of the master
    generator over stored rules). -/
def skip_blocks (trigger_col trigger_val rule_type : String)
    (targets : List String) : List (List String × List String) :=
  targets.map (fun t => generate_skip_spss_syn t trigger_col trigger_val
    rule_type none none)

end Nov27

theorem str_data_append (a b : String) : (a ++ b).data = a.data ++ b.data := rfl

theorem str_eq_of_data {a b : String} (h : a.data = b.data) : a = b := by
  cases a; cases b; simp_all

theorem str_len_append (a b : String) : (a ++ b).length = a.length + b.length := by
  show (a.data ++ b.data).length = a.data.length + b.data.length
  simp

theorem str_ne_of_length {a b : String} (h : a.length ≠ b.length) : a ≠ b :=
  fun e => h (by rw [e])

theorem ne_append_of_revNth (a b tl1 tl2 : String) (n : Nat)
    (h1 : n < tl1.data.length) (h2 : n < tl2.data.length)
    (hne : tl1.data.reverse.get? n ≠ tl2.data.reverse.get? n) :
    a ++ tl1 ≠ b ++ tl2 := by
  intro e
  have hd : (a ++ tl1).data.reverse.get? n = (b ++ tl2).data.reverse.get? n := by
    rw [e]
  rw [str_data_append, str_data_append, List.reverse_append, List.reverse_append,
    List.get?_append (by simpa using h1), List.get?_append (by simpa using h2)] at hd
  exact hne hd

theorem ne_prepend_of_fwdNth (hd1 hd2 a b : String) (n : Nat)
    (h1 : n < hd1.data.length) (h2 : n < hd2.data.length)
    (hne : hd1.data.get? n ≠ hd2.data.get? n) :
    hd1 ++ a ≠ hd2 ++ b := by
  intro e
  have hd : (hd1 ++ a).data.get? n = (hd2 ++ b).data.get? n := by rw [e]
  rw [str_data_append, str_data_append, List.get?_append h1, List.get?_append h2] at hd
  exact hne hd

theorem str_append_left_cancel {a b c : String} (h : a ++ b = a ++ c) : b = c := by
  apply str_eq_of_data
  have h2 := congrArg String.data h
  rw [str_data_append, str_data_append] at h2
  exact List.append_cancel_left h2

theorem base_name_length_le (s : String) : (Nov27.base_name s).length ≤ s.length := by
  unfold Nov27.base_name
  split
  · exact ( List.takeWhile_prefix _).length_le
  · exact le_refl _

/-- C2: for every variable value, the answered predicate generated by
    `get_answered_logic` evaluates to the exact logical negation of the
    missing predicate generated by `get_missing_logic`: a Text value is
    missing exactly when it is the empty string or system-missing, a
    Numeric value exactly when it is system-missing, and in each case the
    answered predicate is true precisely on the complementary values
    (matching the section 4.1 predicates). -/
theorem C2_missing_answered_negation :
    ∀ v : CellValue,
      answered_logic_sem v = TV.not (missing_logic_sem v)
      ∧ (missing_logic_sem v = TV.t ↔ spec_missing_predicate v = true)
      ∧ (answered_logic_sem v = TV.t ↔ spec_answered_predicate v = true) := by
  intro v
  cases v with
  | numv x =>
    cases x <;>
      simp [answered_logic_sem, missing_logic_sem, spec_missing_predicate,
        spec_answered_predicate, TV.not, TV.ofBool]
  | strv s =>
    cases s with
    | none =>
      simp [answered_logic_sem, missing_logic_sem, spec_missing_predicate,
        spec_answered_predicate, TV.not, TV.ofBool, TV.or, TV.and,
        eval_eq_empty, eval_ne_empty]
    | some str =>
      by_cases h : str = "" <;>
        simp [answered_logic_sem, missing_logic_sem, spec_missing_predicate,
          spec_answered_predicate, TV.not, TV.ofBool, TV.or, TV.and,
          eval_eq_empty, eval_ne_empty, h]

/-- C1 fails as stated: for a Text-target (String rule type) skip rule the
    emitted omission condition is the bare comparison `target = empty`
    rather than the section 4.1 missing predicate, so a respondent whose
    trigger condition holds and whose target is system-missing gets final
    flag 0 although the 4.1 missing predicate holds and the claim demands
    flag 1. -/
theorem C1_counterexample :
    Nov27.skip_final_flag ("String") none none (.numv (some 1)) (.numv (some 1))
        (.strv none) = 0
    ∧ spec_missing_predicate (.strv none) = true
    ∧ Nov27.skip_filter_value (.numv (some 1)) (.numv (some 1)) = 1 := by
  decide

/-- C1 amended: the compiled skip-logic statements produce the flags
    `[Flag_<base>, xx<base>]`, and the final flag behaves as the claim
    states for a Numeric target (general rule type): 1 exactly when the
    trigger comparison holds and the target is missing per 4.1, 2 exactly
    when it does not hold and the target is answered per 4.1, 0 otherwise.
    For a Text target (String rule type) the omission test is only
    `target = empty-string` (a system-missing text value is not flagged)
    and the commission test is only `target <> empty-string`. -/
theorem C1_amended_skip_flag :
    (∀ (tr : Option Int) (k : Int) (x : Option Int),
      (Nov27.skip_final_flag ("MQ") none none (.numv tr) (.numv (some k)) (.numv x) = 1
        ↔ tr = some k ∧ spec_missing_predicate (.numv x) = true)
      ∧ (Nov27.skip_final_flag ("MQ") none none (.numv tr) (.numv (some k)) (.numv x) = 2
        ↔ tr ≠ some k ∧ spec_answered_predicate (.numv x) = true)
      ∧ (Nov27.skip_final_flag ("MQ") none none (.numv tr) (.numv (some k)) (.numv x) = 0
        ↔ ¬(tr = some k ∧ spec_missing_predicate (.numv x) = true)
          ∧ ¬(tr ≠ some k ∧ spec_answered_predicate (.numv x) = true)))
    ∧ (∀ (tr : Option Int) (k : Int) (s : Option String),
      (Nov27.skip_final_flag ("String") none none (.numv tr) (.numv (some k)) (.strv s) = 1
        ↔ tr = some k ∧ s = some (""))
      ∧ (Nov27.skip_final_flag ("String") none none (.numv tr) (.numv (some k)) (.strv s) = 2
        ↔ tr ≠ some k ∧ ∃ str, s = some str ∧ str ≠ ""))
    ∧ (∀ (t tc tv rt : String) (rmin rmax : Option Int),
      (Nov27.generate_skip_spss_syn t tc tv rt rmin rmax).2
        = ["Flag_" ++ Nov27.base_name t, "xx" ++ Nov27.base_name t]) := by
  have h1 : ¬ (("MQ" : String) = "SQ") := by decide
  have h2 : ¬ (("MQ" : String) = "String") := by decide
  have h3 : ¬ (("String" : String) = "SQ") := by decide
  refine ⟨?_, ?_, ?_⟩
  · intro tr k x
    cases tr with
    | none =>
      cases x <;>
        simp +decide [Nov27.skip_final_flag, Nov27.skip_filter_value,
          Nov27.skip_eoo_eoc, eval_eq_cell, eval_miss, eval_eq_lit_num,
          eval_ne_lit_num, TV.and, TV.or, TV.not, TV.ofBool,
          spec_missing_predicate, spec_answered_predicate, h1, h2]
    | some a =>
      by_cases h : a = k
      · subst h
        cases x <;>
          simp +decide [Nov27.skip_final_flag, Nov27.skip_filter_value,
            Nov27.skip_eoo_eoc, eval_eq_cell, eval_miss, eval_eq_lit_num,
            eval_ne_lit_num, TV.and, TV.or, TV.not, TV.ofBool,
            spec_missing_predicate, spec_answered_predicate, h1, h2]
      · cases x <;>
          simp +decide [Nov27.skip_final_flag, Nov27.skip_filter_value,
            Nov27.skip_eoo_eoc, eval_eq_cell, eval_miss, eval_eq_lit_num,
            eval_ne_lit_num, TV.and, TV.or, TV.not, TV.ofBool,
            spec_missing_predicate, spec_answered_predicate, h1, h2, h]
  · intro tr k s
    cases tr with
    | none =>
      cases s with
      | none =>
        simp +decide [Nov27.skip_final_flag, Nov27.skip_filter_value,
          Nov27.skip_eoo_eoc, eval_eq_cell, eval_miss, eval_eq_empty,
          eval_ne_empty, eval_eq_lit_num, eval_ne_lit_num, TV.and, TV.or,
          TV.not, TV.ofBool, h3]
      | some str =>
        by_cases he : str = "" <;>
          simp +decide [Nov27.skip_final_flag, Nov27.skip_filter_value,
            Nov27.skip_eoo_eoc, eval_eq_cell, eval_miss, eval_eq_empty,
            eval_ne_empty, eval_eq_lit_num, eval_ne_lit_num, TV.and, TV.or,
            TV.not, TV.ofBool, h3, he]
    | some a =>
      by_cases h : a = k
      · subst h
        cases s with
        | none =>
          simp +decide [Nov27.skip_final_flag, Nov27.skip_filter_value,
            Nov27.skip_eoo_eoc, eval_eq_cell, eval_miss, eval_eq_empty,
            eval_ne_empty, eval_eq_lit_num, eval_ne_lit_num, TV.and, TV.or,
            TV.not, TV.ofBool, h3]
        | some str =>
          by_cases he : str = "" <;>
            simp +decide [Nov27.skip_final_flag, Nov27.skip_filter_value,
              Nov27.skip_eoo_eoc, eval_eq_cell, eval_miss, eval_eq_empty,
              eval_ne_empty, eval_eq_lit_num, eval_ne_lit_num, TV.and, TV.or,
              TV.not, TV.ofBool, h3, he]
      · cases s with
        | none =>
          simp +decide [Nov27.skip_final_flag, Nov27.skip_filter_value,
            Nov27.skip_eoo_eoc, eval_eq_cell, eval_miss, eval_eq_empty,
            eval_ne_empty, eval_eq_lit_num, eval_ne_lit_num, TV.and, TV.or,
            TV.not, TV.ofBool, h3, h]
        | some str =>
          by_cases he : str = "" <;>
            simp +decide [Nov27.skip_final_flag, Nov27.skip_filter_value,
              Nov27.skip_eoo_eoc, eval_eq_cell, eval_miss, eval_eq_empty,
              eval_ne_empty, eval_eq_lit_num, eval_ne_lit_num, TV.and, TV.or,
              TV.not, TV.ofBool, h3, h, he]
  · intro t tc tv rt rmin rmax
    rfl

/-- C9: compilation is deterministic and stateless — the block a rule
    compiles to depends only on the rule and the variable-type metadata,
    not on its position or on any other rule, so compiling the same rule
    twice yields two identical blocks. -/
theorem C9_deterministic_stateless :
    ∀ (vt : App27.VarTypes) (r : App27.SQRule) (pre post : List App27.SQRule),
      App27.master_blocks vt (pre ++ r :: post)
        = App27.master_blocks vt pre ++
          App27.generate_sq_spss_syn vt r :: App27.master_blocks vt post
      ∧ App27.master_blocks vt [r, r]
        = [App27.generate_sq_spss_syn vt r, App27.generate_sq_spss_syn vt r]
      ∧ (∀ (tc tv rt t : String) (ts1 ts2 : List String),
          Nov27.skip_blocks tc tv rt (ts1 ++ t :: ts2)
            = Nov27.skip_blocks tc tv rt ts1 ++
              Nov27.generate_skip_spss_syn t tc tv rt none none ::
                Nov27.skip_blocks tc tv rt ts2) := by
  intro vt r pre post
  refine ⟨by simp [App27.master_blocks], by simp [App27.master_blocks], ?_⟩
  intro tc tv rt t ts1 ts2
  simp [Nov27.skip_blocks]

/-- C8 fails as stated: a rule referencing the variable Q99 when the
    loaded columns are Q1 and Q2 (typed Numeric) is not rejected — the
    compiler raises nothing and emits a complete, ordinary block that
    embeds Q99 verbatim (treating the unknown column as Numeric). -/
theorem C8_counterexample :
    App27.generate_sq_spss_syn
        (fun c => if c = "Q1" then some ("Numeric") else
          if c = "Q2" then some ("Numeric") else none)
        { variable_ := "Q99", min_val := 1, max_val := 5,
          trigger_col := "", trigger_val := "" }
      = ["* SQ Check: Q99",
         "IF(miss(Q99) | ~range(Q99,1,5)) xxQ99_Rng=1.",
         "EXECUTE.\n"] := by
  decide

/-- C8 amended: the compiler performs no validation against the loaded
    column list — every rule compiles to a non-empty block that references
    the variable name of the rule verbatim, and a variable with no type
    metadata is silently treated as Numeric; no UnknownVariable error
    exists. -/
theorem C8_amended_no_validation :
    ∀ (vt : App27.VarTypes) (r : App27.SQRule),
      App27.generate_sq_spss_syn vt r ≠ []
      ∧ ("* SQ Check: " ++ r.variable_) ∈ App27.generate_sq_spss_syn vt r
      ∧ (vt r.variable_ = none →
          ("IF(" ++ App27.get_missing_logic vt r.variable_ ++ " | ~range(" ++
            r.variable_ ++ "," ++ toString r.min_val ++ "," ++
            toString r.max_val ++ ")) " ++
            (App27.FLAG_PFX ++ r.variable_ ++ "_Rng") ++ "=1.")
            ∈ App27.generate_sq_spss_syn vt r) := by
  intro vt r
  refine ⟨by simp [App27.generate_sq_spss_syn], by simp [App27.generate_sq_spss_syn], ?_⟩
  intro hnone
  have hs : App27.is_string vt r.variable_ = false := by
    simp [App27.is_string, hnone]
  simp [App27.generate_sq_spss_syn, hs]

/-- C10: the standalone mandatory-missing statement
    `IF(v = empty) xx<v>_Miss=1.` is emitted by the string generator if
    and only if skip logic is disabled for the rule, and its semantics
    flags exactly the empty-string value. -/
theorem C10_string_missing_check :
    ∀ r : Nov27.StringRule,
      ((Nov27.FLAG_PFX ++ r.variable_ ++ "_Miss") ∈ (Nov27.generate_string_spss_syn r).2
        ↔ r.run_skip = false)
      ∧ (r.run_skip = false →
          ("IF(" ++ r.variable_ ++ "=" ++ quo2 ++ ") " ++
            (Nov27.FLAG_PFX ++ r.variable_ ++ "_Miss") ++ "=1.")
            ∈ (Nov27.generate_string_spss_syn r).1)
      ∧ (∀ s : Option String, Nov27.string_miss_flag s = 1 ↔ s = some ("")) := by
  intro r
  have hJ : (Nov27.FLAG_PFX ++ r.variable_ ++ "_Miss")
      ≠ (Nov27.FLAG_PFX ++ r.variable_ ++ "_Junk") :=
    ne_append_of_revNth _ _ _ _ 0 (by decide) (by decide) (by decide)
  have hF : (Nov27.FLAG_PFX ++ (r.variable_ ++ "_Miss"))
      ≠ ("Flag_" ++ Nov27.base_name r.variable_) :=
    ne_prepend_of_fwdNth _ _ _ _ 0 (by decide) (by decide) (by decide)
  rw [← String.append_assoc] at hF
  have hB : (Nov27.FLAG_PFX ++ r.variable_ ++ "_Miss")
      ≠ (Nov27.FLAG_PFX ++ Nov27.base_name r.variable_) := by
    apply str_ne_of_length
    rw [str_len_append, str_len_append, str_len_append]
    have h5 : ("_Miss" : String).length = 5 := by decide
    have hb := base_name_length_le r.variable_
    omega
  refine ⟨?_, ?_, ?_⟩
  · cases hrs : r.run_skip with
    | false =>
      by_cases hml : 0 < r.min_length <;>
        simp [Nov27.generate_string_spss_syn, hrs, hml]
    | true =>
      by_cases hml : 0 < r.min_length <;>
        by_cases htc : r.trigger_col = ("-- Select Variable --") <;>
          simp [Nov27.generate_string_spss_syn, Nov27.generate_skip_spss_syn,
            hrs, hml, htc, hJ, hF, hB]
  · intro hrs
    by_cases hml : 0 < r.min_length <;>
      simp [Nov27.generate_string_spss_syn, hrs, hml]
  · intro s
    cases s with
    | none => simp [Nov27.string_miss_flag, eval_eq_empty]
    | some str =>
      by_cases he : str = "" <;>
        simp [Nov27.string_miss_flag, eval_eq_empty, TV.ofBool, he]

/-- C3 fails as stated: the two skip rules for the distinct targets Q5_1
    and Q5_2 compile to blocks with identical flag names Flag_Q5 and xxQ5,
    because flag names are derived from the part of the target before the
    first underscore. -/
theorem C3_counterexample :
    ("Q5_1" : String) ≠ "Q5_2"
    ∧ (Nov27.generate_skip_spss_syn ("Q5_1") ("Q1") ("1") ("MQ") none none).2
        = ["Flag_Q5", "xxQ5"]
    ∧ (Nov27.generate_skip_spss_syn ("Q5_2") ("Q1") ("1") ("MQ") none none).2
        = ["Flag_Q5", "xxQ5"] := by
  decide

/-- C3 amended: flag names are derived from the base name (the part of the
    target before the first underscore), so compiling any set of skip
    rules whose target base names are pairwise distinct never produces two
    blocks with an overlapping flag name. -/
theorem C3_flag_uniqueness_amended (ts : List String) (trig tv rt : String)
    (h : (ts.map Nov27.base_name).Pairwise (fun a b => a ≠ b)) :
    (ts.map (Nov27.skip_flags trig tv rt)).Pairwise List.Disjoint := by
  rw [List.pairwise_map] at h ⊢
  refine h.imp ?_
  intro a b hab
  have e1 : Nov27.skip_flags trig tv rt a
      = ["Flag_" ++ Nov27.base_name a, Nov27.FLAG_PFX ++ Nov27.base_name a] := rfl
  have e2 : Nov27.skip_flags trig tv rt b
      = ["Flag_" ++ Nov27.base_name b, Nov27.FLAG_PFX ++ Nov27.base_name b] := rfl
  have hFF : ("Flag_" ++ Nov27.base_name a) ≠ ("Flag_" ++ Nov27.base_name b) :=
    fun e => hab (str_append_left_cancel e)
  have hXX : (Nov27.FLAG_PFX ++ Nov27.base_name a)
      ≠ (Nov27.FLAG_PFX ++ Nov27.base_name b) :=
    fun e => hab (str_append_left_cancel e)
  have hFX : ("Flag_" ++ Nov27.base_name a)
      ≠ (Nov27.FLAG_PFX ++ Nov27.base_name b) :=
    ne_prepend_of_fwdNth _ _ _ _ 0 (by decide) (by decide) (by decide)
  have hXF : (Nov27.FLAG_PFX ++ Nov27.base_name a)
      ≠ ("Flag_" ++ Nov27.base_name b) :=
    ne_prepend_of_fwdNth _ _ _ _ 0 (by decide) (by decide) (by decide)
  intro x hx1 hx2
  rw [e1] at hx1
  rw [e2] at hx2
  simp only [List.mem_cons, List.mem_singleton, List.not_mem_nil, or_false] at hx1 hx2
  rcases hx1 with h1 | h1 <;> rcases hx2 with h2 | h2 <;> subst h1
  · exact hFF (h2 ▸ rfl)
  · exact hFX (h2 ▸ rfl)
  · exact hXF (h2 ▸ rfl)
  · exact hXX (h2 ▸ rfl)

/-- Witness for C3 amended at the targets Q1_1 and Q2_1 with trigger Q0. -/
theorem C3_flag_uniqueness_amended_witness :
    ((["Q1_1", "Q2_1"].map Nov27.base_name).Pairwise (fun a b => a ≠ b))
    ∧ ((["Q1_1", "Q2_1"].map (Nov27.skip_flags ("Q0") ("1") ("MQ"))).Pairwise
        List.Disjoint) :=
  ⟨by decide, C3_flag_uniqueness_amended _ _ _ _ (by decide)⟩

/-- C4 fails as stated: with the piping check enabled on a rule, the
    27novapp generator emits no range-check statement at all — the flag
    xxQ5_Rng does not occur among the generated flags, which are only the
    filter flag and the piping flag. -/
theorem C4_counterexample :
    ((Nov27.generate_sq_spss_syn
        { variable_ := "Q5", min_val := 1, max_val := 5, required_stubs := [],
          other_var := "-- Select Variable --", other_stub_val := 99,
          run_skip := false, trigger_col := "Q1", trigger_val := "1",
          run_piping_check := true, piping_source_col := "Q2",
          piping_stub_val := 1 }).2 = ["Flag_Q5", "xxQ5"])
    ∧ ((Nov27.FLAG_PFX ++ "Q5" ++ "_Rng") ∉
        (Nov27.generate_sq_spss_syn
          { variable_ := "Q5", min_val := 1, max_val := 5, required_stubs := [],
            other_var := "-- Select Variable --", other_stub_val := 99,
            run_skip := false, trigger_col := "Q1", trigger_val := "1",
            run_piping_check := true, piping_source_col := "Q2",
            piping_stub_val := 1 }).2) := by
  decide

/-- C4 amended: when the piping check is disabled the 27novapp generator
    emits exactly one range-check flag xx<variable>_Rng together with its
    statement IF(miss(v) | ~range(v,min,max)) flag=1, for every trigger or
    skip configuration and regardless of the declared variable type; when
    piping is enabled it emits none.  The 27app generator always emits the
    range-check statement, skipping the numeric bound check for Text
    variables. -/
theorem C4_range_check_amended :
    (∀ r : Nov27.SQRule, r.run_piping_check = false →
      ((Nov27.generate_sq_spss_syn r).2.count
          (Nov27.FLAG_PFX ++ r.variable_ ++ "_Rng") = 1)
      ∧ ("IF(miss(" ++ r.variable_ ++ ") | ~range(" ++ r.variable_ ++ "," ++
          toString r.min_val ++ "," ++ toString r.max_val ++ ")) " ++
          (Nov27.FLAG_PFX ++ r.variable_ ++ "_Rng") ++ "=1.")
          ∈ (Nov27.generate_sq_spss_syn r).1)
    ∧ (∀ r : Nov27.SQRule, r.run_piping_check = true →
        (Nov27.generate_sq_spss_syn r).2.count
          (Nov27.FLAG_PFX ++ r.variable_ ++ "_Rng") = 0)
    ∧ (∀ (vt : App27.VarTypes) (r : App27.SQRule),
        (App27.is_string vt r.variable_ = false →
          ("IF(" ++ App27.get_missing_logic vt r.variable_ ++ " | ~range(" ++
            r.variable_ ++ "," ++ toString r.min_val ++ "," ++
            toString r.max_val ++ ")) " ++
            (App27.FLAG_PFX ++ r.variable_ ++ "_Rng") ++ "=1.")
            ∈ App27.generate_sq_spss_syn vt r)
        ∧ (App27.is_string vt r.variable_ = true →
          ("IF(" ++ App27.get_missing_logic vt r.variable_ ++ ") " ++
            (App27.FLAG_PFX ++ r.variable_ ++ "_Rng") ++ "=1.")
            ∈ App27.generate_sq_spss_syn vt r)) := by
  have key : ∀ r : Nov27.SQRule,
      (Nov27.generate_sq_spss_syn r).2.count
          (Nov27.FLAG_PFX ++ r.variable_ ++ "_Rng")
        = (if r.run_piping_check = false then 1 else 0) := by
    intro r
    have hAny : (Nov27.FLAG_PFX ++ r.variable_ ++ "_Rng")
        ≠ (Nov27.FLAG_PFX ++ r.variable_ ++ "_Any") :=
      ne_append_of_revNth _ _ _ _ 0 (by decide) (by decide) (by decide)
    have hOF : (Nov27.FLAG_PFX ++ r.variable_ ++ "_Rng")
        ≠ (Nov27.FLAG_PFX ++ Nov27.base_name r.variable_ ++ "_OtherFwd") :=
      ne_append_of_revNth _ _ _ _ 0 (by decide) (by decide) (by decide)
    have hOR : (Nov27.FLAG_PFX ++ r.variable_ ++ "_Rng")
        ≠ (Nov27.FLAG_PFX ++ Nov27.base_name r.variable_ ++ "_OtherRev") :=
      ne_append_of_revNth _ _ _ _ 0 (by decide) (by decide) (by decide)
    have hFlag : (Nov27.FLAG_PFX ++ (r.variable_ ++ "_Rng"))
        ≠ ("Flag_" ++ Nov27.base_name r.variable_) :=
      ne_prepend_of_fwdNth _ _ _ _ 0 (by decide) (by decide) (by decide)
    rw [← String.append_assoc] at hFlag
    have hPipe : (Nov27.FLAG_PFX ++ r.variable_ ++ "_Rng")
        ≠ (Nov27.FLAG_PFX ++ r.variable_) := by
      apply str_ne_of_length
      rw [str_len_append, str_len_append]
      have h4 : ("_Rng" : String).length = 4 := by decide
      omega
    have hBase : (Nov27.FLAG_PFX ++ r.variable_ ++ "_Rng")
        ≠ (Nov27.FLAG_PFX ++ Nov27.base_name r.variable_) := by
      apply str_ne_of_length
      rw [str_len_append, str_len_append, str_len_append]
      have h4 : ("_Rng" : String).length = 4 := by decide
      have hb := base_name_length_le r.variable_
      omega
    cases hpip : r.run_piping_check <;>
      by_cases hst : r.required_stubs = [] <;>
      by_cases hov : r.other_var ≠ "" ∧ r.other_var ≠ ("-- Select Variable --") <;>
      by_cases hsk : r.run_skip = true <;>
      by_cases htc : r.trigger_col = ("-- Select Variable --") <;>
      by_cases hps : r.piping_source_col = ("-- Select Variable --") <;>
        simp [Nov27.generate_sq_spss_syn, Nov27.generate_other_specify_spss_syn,
          Nov27.generate_piping_spss_syn, Nov27.generate_skip_spss_syn,
          hpip, hst, hov, hsk, htc, hps, List.count_append, List.count_cons,
          hAny, hOF, hOR, hFlag, hPipe, hBase]
  refine ⟨?_, ?_, ?_⟩
  · intro r hpip
    refine ⟨by rw [key r, if_pos hpip], ?_⟩
    by_cases hsk : r.run_skip = true <;>
      by_cases htc : r.trigger_col = ("-- Select Variable --") <;>
      by_cases hst : r.required_stubs = [] <;>
      by_cases hov : r.other_var ≠ "" ∧ r.other_var ≠ ("-- Select Variable --") <;>
        simp [Nov27.generate_sq_spss_syn, hpip, hsk, htc, hst, hov]
  · intro r hpip
    rw [key r, if_neg (by simp [hpip])]
  · intro vt r
    constructor
    · intro hs
      simp [App27.generate_sq_spss_syn, hs]
    · intro hs
      simp [App27.generate_sq_spss_syn, hs]

/-- Witness for C4 amended: a plain range rule without piping compiles to
    exactly one range flag, and the piping-enabled rule of the
    counterexample compiles to none. -/
theorem C4_range_check_amended_witness :
    (({ variable_ := "Q3", min_val := 1, max_val := 7, required_stubs := [],
        other_var := "", other_stub_val := 99, run_skip := false,
        trigger_col := "-- Select Variable --", trigger_val := "1",
        run_piping_check := false, piping_source_col := "-- Select Variable --",
        piping_stub_val := 1 } : Nov27.SQRule).run_piping_check = false)
    ∧ (Nov27.generate_sq_spss_syn
        { variable_ := "Q3", min_val := 1, max_val := 7, required_stubs := [],
          other_var := "", other_stub_val := 99, run_skip := false,
          trigger_col := "-- Select Variable --", trigger_val := "1",
          run_piping_check := false, piping_source_col := "-- Select Variable --",
          piping_stub_val := 1 }).2.count
        (Nov27.FLAG_PFX ++ "Q3" ++ "_Rng") = 1 :=
  ⟨rfl, (C4_range_check_amended.1
    { variable_ := "Q3", min_val := 1, max_val := 7, required_stubs := [],
      other_var := "", other_stub_val := 99, run_skip := false,
      trigger_col := "-- Select Variable --", trigger_val := "1",
      run_piping_check := false, piping_source_col := "-- Select Variable --",
      piping_stub_val := 1 } rfl).1⟩

theorem TV_and_f (x : TV) : TV.and x TV.f = TV.f := by cases x <;> rfl

theorem spssMin_cons (v : Option Int) (l : List (Option Int)) :
    App27.spssMin (v :: l)
      = (match v, App27.spssMin l with
         | none, a => a
         | some x, none => some x
         | some x, some y => some (min x y)) := rfl

theorem spssMax_cons (v : Option Int) (l : List (Option Int)) :
    App27.spssMax (v :: l)
      = (match v, App27.spssMax l with
         | none, a => a
         | some x, none => some x
         | some x, some y => some (max x y)) := rfl

/-- C5: for a GroupCountRule with non-empty variables the compiler emits a
    count statement into <group_base>_Count, a minimum flag that fires
    exactly when the count is strictly below min_count and the first
    variable is answered (so with min_count 2, counts 0 and 1 flag while 2
    and 3 do not), and a maximum flag, present if and only if max_count is
    set, that fires exactly when the count strictly exceeds it. -/
theorem C5_group_count (v0 : String) (rest : List String) (mn : Int)
    (mx : Option Int) (hmx : ∀ m, mx = some m → 0 < m) :
    (("COMPUTE " ++ (Nov27.base_name v0 ++ "_Count") ++ " = " ++ "SUM" ++ "(" ++
        String.intercalate (" ") (v0 :: rest) ++ ").")
       ∈ (Nov27.generate_mq_spss_syn (Nov27.plain_mq_rule (v0 :: rest) mn mx)).1)
    ∧ ((Nov27.generate_mq_spss_syn (Nov27.plain_mq_rule (v0 :: rest) mn mx)).2
        = [Nov27.base_name v0 ++ "_Count",
           Nov27.FLAG_PFX ++ Nov27.base_name v0 ++ "_Min"]
          ++ (match mx with
              | some m =>
                if 0 < m then [Nov27.FLAG_PFX ++ Nov27.base_name v0 ++ "_Max"]
                else []
              | none => []))
    ∧ ((Nov27.FLAG_PFX ++ Nov27.base_name v0 ++ "_Max")
        ∈ (Nov27.generate_mq_spss_syn (Nov27.plain_mq_rule (v0 :: rest) mn mx)).2
        ↔ mx.isSome)
    ∧ (∀ (cnt first : Option Int),
        Nov27.mq_min_flag cnt mn first = 1
          ↔ (∃ c, cnt = some c ∧ c < mn) ∧ first ≠ none)
    ∧ (∀ (cnt : Option Int) (m : Int),
        Nov27.mq_max_flag cnt m = 1 ↔ ∃ c, cnt = some c ∧ m < c)
    ∧ (Nov27.mq_min_flag (some 0) 2 (some 1) = 1
       ∧ Nov27.mq_min_flag (some 1) 2 (some 1) = 1
       ∧ Nov27.mq_min_flag (some 2) 2 (some 1) = 0
       ∧ Nov27.mq_min_flag (some 3) 2 (some 1) = 0) := by
  have hMC : (Nov27.FLAG_PFX ++ Nov27.base_name v0 ++ "_Max")
      ≠ (Nov27.base_name v0 ++ "_Count") :=
    ne_append_of_revNth _ _ _ _ 0 (by decide) (by decide) (by decide)
  have hMM : (Nov27.FLAG_PFX ++ Nov27.base_name v0 ++ "_Max")
      ≠ (Nov27.FLAG_PFX ++ Nov27.base_name v0 ++ "_Min") :=
    ne_append_of_revNth _ _ _ _ 0 (by decide) (by decide) (by decide)
  have hflags : (Nov27.generate_mq_spss_syn (Nov27.plain_mq_rule (v0 :: rest) mn mx)).2
      = [Nov27.base_name v0 ++ "_Count",
         Nov27.FLAG_PFX ++ Nov27.base_name v0 ++ "_Min"]
        ++ (match mx with
            | some m =>
              if 0 < m then [Nov27.FLAG_PFX ++ Nov27.base_name v0 ++ "_Max"]
              else []
            | none => []) := by
    cases mx with
    | none => simp [Nov27.generate_mq_spss_syn, Nov27.plain_mq_rule]
    | some m =>
      by_cases hm : 0 < m <;>
        simp [Nov27.generate_mq_spss_syn, Nov27.plain_mq_rule, hm]
  refine ⟨?_, hflags, ?_, ?_, ?_, by decide⟩
  · simp [Nov27.generate_mq_spss_syn, Nov27.plain_mq_rule]
  · rw [hflags]
    cases mx with
    | none => simp [hMC, hMM]
    | some m =>
      have hm : 0 < m := hmx m rfl
      simp [hm]
  · intro cnt first
    cases cnt with
    | none =>
      cases first <;>
        simp [Nov27.mq_min_flag, eval_lt, eval_miss, TV.not, TV.ofBool, TV.and]
    | some c =>
      by_cases hc : c < mn <;>
        cases first <;>
          simp [Nov27.mq_min_flag, eval_lt, eval_miss, TV.not, TV.ofBool,
            TV.and, hc]
  · intro cnt m
    cases cnt with
    | none => simp [Nov27.mq_max_flag, eval_gt]
    | some c =>
      by_cases hc : m < c <;>
        simp [Nov27.mq_max_flag, eval_gt, TV.ofBool, hc]

/-- Witness for C5 at the group Q1_1 Q1_2 Q1_3 with min_count 2 and
    max_count 3. -/
theorem C5_group_count_witness :
    (∀ m : Int, (some 3 : Option Int) = some m → 0 < m)
    ∧ ((Nov27.FLAG_PFX ++ Nov27.base_name "Q1_1" ++ "_Max")
        ∈ (Nov27.generate_mq_spss_syn
            (Nov27.plain_mq_rule ["Q1_1", "Q1_2", "Q1_3"] 2 (some 3))).2) :=
  ⟨fun m hm => by injection hm with h; omega,
   (C5_group_count ("Q1_1") ["Q1_2", "Q1_3"] 2 (some 3)
     (fun m hm => by injection hm with h; omega)).2.2.1.mpr (by decide)⟩

theorem straightliner_flag_cons_some (a : Int) (rest : List (Option Int)) :
    App27.straightliner_flag (some a :: rest) = 1
      ↔ App27.spssMin (some a :: rest) = App27.spssMax (some a :: rest) := by
  obtain ⟨A, hA⟩ : ∃ A, App27.spssMin (some a :: rest) = some A := by
    rw [spssMin_cons]
    cases App27.spssMin rest <;> exact ⟨_, rfl⟩
  obtain ⟨B, hB⟩ : ∃ B, App27.spssMax (some a :: rest) = some B := by
    rw [spssMax_cons]
    cases App27.spssMax rest <;> exact ⟨_, rfl⟩
  by_cases hAB : A = B <;>
    simp [App27.straightliner_flag, hA, hB, App27.eval_eq_opt, eval_miss,
      TV.not, TV.ofBool, TV.and, hAB]

/-- C6: the straightliner compiler emits the single statement
    IF(MIN(vars) = MAX(vars) & answered(first)) xx<group>_Str=1., whose
    semantics flags a respondent exactly when the row minimum equals the
    row maximum and the first listed variable is answered; [3,3,3] flags,
    [3,3,4] does not, and an entirely missing grid does not. -/
theorem C6_straightliner :
    (∀ (vt : App27.VarTypes) (r : App27.SLRule),
      App27.generate_straightliner_spss_syn vt r
        = ["* Straightliner: " ++ r.group_name,
           "IF(MIN(" ++ String.intercalate (" ") r.variables_ ++ ") = MAX(" ++
             String.intercalate (" ") r.variables_ ++ ") & " ++
             App27.get_answered_logic vt (r.variables_.headD ("")) ++ ") " ++
             App27.FLAG_PFX ++ r.group_name ++ "_Str=1.",
           "EXECUTE.\n"])
    ∧ (∀ (v0 : Option Int) (rest : List (Option Int)),
        App27.straightliner_flag (v0 :: rest) = 1
          ↔ App27.spssMin (v0 :: rest) = App27.spssMax (v0 :: rest) ∧ v0 ≠ none)
    ∧ (App27.straightliner_flag [some 3, some 3, some 3] = 1
       ∧ App27.straightliner_flag [some 3, some 3, some 4] = 0
       ∧ App27.straightliner_flag [none, none, none] = 0) := by
  refine ⟨fun vt r => rfl, ?_, by decide⟩
  intro v0 rest
  cases v0 with
  | none =>
    simp [App27.straightliner_flag, eval_miss, TV.not, TV.ofBool, TV_and_f]
  | some a =>
    rw [straightliner_flag_cons_some]
    simp

/-- C7: for every TextLengthRule (min_length is at least 1 in the
    configuration UI) the string generator emits the junk statement and
    flag xx<variable>_Junk, whose semantics fires exactly when the value
    is answered (non-missing, non-empty) and its right-trimmed length is
    strictly below min_length; blank or missing answers are never
    flagged. -/
theorem C7_text_length_junk (r : Nov27.StringRule) (h : 0 < r.min_length) :
    ((Nov27.FLAG_PFX ++ r.variable_ ++ "_Junk")
        ∈ (Nov27.generate_string_spss_syn r).2)
    ∧ (("IF(~miss(" ++ r.variable_ ++ ") & " ++ r.variable_ ++ "<>" ++ quo2 ++
        " & LENGTH(RTRIM(" ++ r.variable_ ++ ")) < " ++
        toString r.min_length ++ ") " ++
        (Nov27.FLAG_PFX ++ r.variable_ ++ "_Junk") ++ "=1.")
        ∈ (Nov27.generate_string_spss_syn r).1)
    ∧ (∀ (s : Option String) (n : Int),
        Nov27.junk_flag s n = 1
          ↔ ∃ str, s = some str ∧ str ≠ "" ∧ ((Nov27.rtrim str).length : Int) < n)
    ∧ (∀ n : Int, Nov27.junk_flag none n = 0 ∧ Nov27.junk_flag (some ("")) n = 0) := by
  refine ⟨?_, ?_, ?_, ?_⟩
  · by_cases hsk : r.run_skip = true <;>
      by_cases htc : r.trigger_col = ("-- Select Variable --") <;>
        simp [Nov27.generate_string_spss_syn, h, hsk, htc]
  · by_cases hsk : r.run_skip = true <;>
      by_cases htc : r.trigger_col = ("-- Select Variable --") <;>
        simp [Nov27.generate_string_spss_syn, h, hsk, htc]
  · intro s n
    cases s with
    | none =>
      simp [Nov27.junk_flag, eval_miss, eval_ne_empty, TV.not, TV.ofBool, TV.and]
    | some str =>
      by_cases he : str = "" <;>
        by_cases hl : ((Nov27.rtrim str).length : Int) < n <;>
          simp [Nov27.junk_flag, eval_miss, eval_ne_empty, TV.not, TV.ofBool,
            TV.and, he, hl]
  · intro n
    constructor <;>
      simp [Nov27.junk_flag, eval_miss, eval_ne_empty, TV.not, TV.ofBool, TV.and]

/-- Witness for C7 at a rule with min_length 5. -/
theorem C7_text_length_junk_witness :
    ((0 : Int) < 5)
    ∧ ((Nov27.FLAG_PFX ++ "Q10" ++ "_Junk")
        ∈ (Nov27.generate_string_spss_syn
            { variable_ := "Q10", min_length := 5, run_skip := false,
              trigger_col := "-- Select Variable --", trigger_val := "1" }).2) :=
  ⟨by decide,
   (C7_text_length_junk
     { variable_ := "Q10", min_length := 5, run_skip := false,
       trigger_col := "-- Select Variable --", trigger_val := "1" }
     (by decide)).1⟩

/-- Witness for C8 amended: the Q99 rule with empty type metadata. -/
theorem C8_amended_no_validation_witness :
    (((fun _ => none) : App27.VarTypes) ("Q99") = none)
    ∧ App27.generate_sq_spss_syn (fun _ => none)
        { variable_ := "Q99", min_val := 1, max_val := 5,
          trigger_col := "", trigger_val := "" } ≠ []
    ∧ ("IF(" ++ App27.get_missing_logic (fun _ => none) ("Q99") ++
        " | ~range(" ++ "Q99" ++ "," ++ toString (1 : Int) ++ "," ++
        toString (5 : Int) ++ ")) " ++
        (App27.FLAG_PFX ++ "Q99" ++ "_Rng") ++ "=1.")
        ∈ App27.generate_sq_spss_syn (fun _ => none)
          { variable_ := "Q99", min_val := 1, max_val := 5,
            trigger_col := "", trigger_val := "" } :=
  ⟨rfl,
   (C8_amended_no_validation (fun _ => none)
     { variable_ := "Q99", min_val := 1, max_val := 5,
       trigger_col := "", trigger_val := "" }).1,
   (C8_amended_no_validation (fun _ => none)
     { variable_ := "Q99", min_val := 1, max_val := 5,
       trigger_col := "", trigger_val := "" }).2.2 rfl⟩

/-- Witness for C10 at a rule with skip logic disabled. -/
theorem C10_string_missing_check_witness :
    ((Nov27.FLAG_PFX ++ "Q7" ++ "_Miss")
        ∈ (Nov27.generate_string_spss_syn
            { variable_ := "Q7", min_length := 5, run_skip := false,
              trigger_col := "-- Select Variable --", trigger_val := "1" }).2)
    ∧ (("IF(" ++ "Q7" ++ "=" ++ quo2 ++ ") " ++
        (Nov27.FLAG_PFX ++ "Q7" ++ "_Miss") ++ "=1.")
        ∈ (Nov27.generate_string_spss_syn
            { variable_ := "Q7", min_length := 5, run_skip := false,
              trigger_col := "-- Select Variable --", trigger_val := "1" }).1) :=
  ⟨(C10_string_missing_check
      { variable_ := "Q7", min_length := 5, run_skip := false,
        trigger_col := "-- Select Variable --", trigger_val := "1" }).1.mpr rfl,
   (C10_string_missing_check
      { variable_ := "Q7", min_length := 5, run_skip := false,
        trigger_col := "-- Select Variable --", trigger_val := "1" }).2.1 rfl⟩
